import Mathlib

/-!
Shallow embedding of the SIM800C modem driver (sim800.py) and the
Bonbon money-transfer conversation flow (bonbon_utils.py).

Strings are modelled as Lean `String` / `List Char`; Python string
primitives (`str.lower`, `str.strip`, `in`, `str.split`, `str.replace`)
are embedded below.  Side effects (registering callbacks, sending SMS,
enqueuing USSD requests, logging, raising) are reified as an explicit
effect list plus an optional error, in the order the code performs them.
-/

namespace Sim800

/-- Python `str.lower()` restricted to ASCII letters (all tokens the flow
compares against are ASCII). -/
def pyLower (s : String) : String := String.mk (s.toList.map Char.toLower)

/-- Python `str.strip()` whitespace set (ASCII whitespace). -/
def pySpace (c : Char) : Bool :=
  c == ' ' || c == '\t' || c == '\n' || c == '\r' || c == '\x0b' || c == '\x0c'

def pyStripList (l : List Char) : List Char :=
  ((l.dropWhile pySpace).reverse.dropWhile pySpace).reverse

/-- Python `str.strip()`. -/
def pyStrip (s : String) : String := String.mk (pyStripList s.toList)

/-- Python `needle in hay` on char lists. -/
def containsSub : List Char → List Char → Bool
  | hay, needle =>
    if needle.isPrefixOf hay then true
    else
      match hay with
      | [] => false
      | _ :: t => containsSub t needle

/-- Python `needle in hay` on strings. -/
def strContains (hay needle : String) : Bool := containsSub hay.toList needle.toList

/-- The three SMS-reply step handlers of the money-transfer flow
(`_send_nr`, `_send_amount`, `_last_confirm`). -/
inductive HandlerTag where
  | sendNr
  | sendAmount
  | lastConfirm
  deriving DecidableEq, Repr

/-- Reified side effects of the flow code, in execution order. -/
inductive Effect where
  | registerCallback (number : String) (tag : HandlerTag)
  | resetRegistry
  | sendSMS (number text : String)
  | sendUSSDReq (code : String)
  | logMsg (msg : String)
  deriving DecidableEq, Repr

/-- Mutable fields of a `BonbonMoneyTransfer` object. -/
structure BonbonState where
  masterNumber : String
  amount : Nat
  expirationDate : String
  deriving DecidableEq, Repr

/-- Result of running a flow method: the updated object state, the effects
performed (in order) before returning or raising, and the raised error if
any (`assert` failures and `raise RuntimeError` both land here). -/
structure HandlerResult where
  state : BonbonState
  effects : List Effect
  error : Option String
  deriving DecidableEq, Repr

def BONBON_ACTION_NR : String := "13977"
def BONBON_USSD_QUERY : String := "*100#"

/-- Model of `BonbonMoneyTransfer.run` (bonbon_utils.py lines 20-25). -/
def bonbonRun (st : BonbonState) (amount_of_money : Nat) : HandlerResult :=
  if amount_of_money = 0 then
    { state := st, effects := [], error := some "AssertionError: amount_of_money > 0" }
  else
    { state := { st with amount := amount_of_money },
      effects := [Effect.registerCallback BONBON_ACTION_NR HandlerTag.sendNr,
                  Effect.sendSMS BONBON_ACTION_NR "prebaci"],
      error := none }

/-- Model of `BonbonMoneyTransfer._send_nr` (bonbon_utils.py lines 58-71). -/
def sendNr (st : BonbonState) (number text : String) : HandlerResult :=
  if number ≠ BONBON_ACTION_NR then
    { state := st, effects := [],
      error := some ("expected to receive from '" ++ BONBON_ACTION_NR ++ "', got '"
        ++ number ++ "'") }
  else
    let t := pyStrip (pyLower text)
    if strContains t "09yxxxxxxx" then
      { state := st,
        effects := [Effect.registerCallback BONBON_ACTION_NR HandlerTag.sendAmount,
                    Effect.sendSMS BONBON_ACTION_NR st.masterNumber],
        error := none }
    else
      { state := st, effects := [Effect.resetRegistry],
        error := some ("got unexpected text after \"prebaci\" to "
          ++ BONBON_ACTION_NR ++ ": \"" ++ t ++ "\"") }

/-- Model of `BonbonMoneyTransfer._send_amount` (bonbon_utils.py lines 73-86). -/
def sendAmount (st : BonbonState) (number text : String) : HandlerResult :=
  if number ≠ BONBON_ACTION_NR then
    { state := st, effects := [],
      error := some ("expected to receive from '" ++ BONBON_ACTION_NR ++ "', got '"
        ++ number ++ "'") }
  else
    let t := pyStrip (pyLower text)
    if strContains t "cjelobrojni" then
      { state := st,
        effects := [Effect.registerCallback BONBON_ACTION_NR HandlerTag.lastConfirm,
                    Effect.sendSMS BONBON_ACTION_NR (toString st.amount)],
        error := none }
    else
      { state := st, effects := [Effect.resetRegistry],
        error := some ("got unexpected text after transfer phone number was sent to "
          ++ BONBON_ACTION_NR ++ ": \"" ++ t ++ "\"") }

/-- Model of `BonbonMoneyTransfer._last_confirm` (bonbon_utils.py lines 88-101). -/
def lastConfirm (st : BonbonState) (number text : String) : HandlerResult :=
  if number ≠ BONBON_ACTION_NR then
    { state := st, effects := [],
      error := some ("expected to receive from '" ++ BONBON_ACTION_NR ++ "', got '"
        ++ number ++ "'") }
  else
    let t := pyStrip (pyLower text)
    if strContains t "odgovori na ovu poruku s da" then
      { state := st,
        effects := [Effect.resetRegistry, Effect.sendSMS BONBON_ACTION_NR "DA"],
        error := none }
    else
      { state := st, effects := [Effect.resetRegistry],
        error := some ("got unexpected text after amount was sent to "
          ++ BONBON_ACTION_NR ++ ": \"" ++ t ++ "\"") }

/-- Does the suffix start with an EUR marker, i.e. the regex alternative
`(?:eur|â‚¬)` under IGNORECASE?  (The source file literally contains the
three characters `â`, `‚`, `¬` — a double-encoded euro sign.) -/
def eurMarkerAt (l : List Char) : Bool :=
  match l with
  | c1 :: c2 :: c3 :: _ =>
    (c1.toLower == 'e' && c2.toLower == 'u' && c3.toLower == 'r') ||
    ((c1 == 'â' || c1 == 'Â') && c2 == '‚' && c3 == '¬')
  | _ => false

/-- Match the regex `(\d+\.\d{2})\s*(?:eur|â‚¬)` (IGNORECASE) anchored at the
head of `l`, returning group 1.  `\d+` is greedy; since digits and `.` are
disjoint, the maximal digit run is the only candidate, and likewise the
maximal whitespace run for `\s*`. -/
def matchEurAt (l : List Char) : Option (List Char) :=
  let ds := l.takeWhile Char.isDigit
  if ds.isEmpty then none
  else
    match l.drop ds.length with
    | '.' :: a :: b :: rest =>
      if a.isDigit && b.isDigit then
        if eurMarkerAt (rest.dropWhile pySpace) then some (ds ++ ['.', a, b])
        else none
      else none
    | _ => none

/-- Leftmost-match `re.search` for the EUR-amount pattern, returning group 1. -/
def reSearchEur : List Char → Option (List Char)
  | [] => none
  | c :: rest =>
    match matchEurAt (c :: rest) with
    | some g => some g
    | none => reSearchEur rest

/-- Match the regex `\d{2}\.\d{2}\.\d{4}` anchored at the head of `l`. -/
def matchDateAt (l : List Char) : Option (List Char) :=
  match l with
  | d1 :: d2 :: '.' :: m1 :: m2 :: '.' :: y1 :: y2 :: y3 :: y4 :: _ =>
    if d1.isDigit && d2.isDigit && m1.isDigit && m2.isDigit &&
        y1.isDigit && y2.isDigit && y3.isDigit && y4.isDigit then
      some [d1, d2, '.', m1, m2, '.', y1, y2, y3, y4]
    else none
  | _ => none

/-- Leftmost-match `re.search` for the date pattern. -/
def reSearchDate : List Char → Option (List Char)
  | [] => none
  | c :: rest =>
    match matchDateAt (c :: rest) with
    | some g => some g
    | none => reSearchDate rest

def digitsToNat (ds : List Char) : Nat :=
  ds.foldl (fun n c => 10 * n + (c.toNat - 48)) 0

/-- Python `int(floor(float(s)))` for a matched group of shape `\d+\.\d{2}`: the
decimal value is nonnegative with two fractional digits, so the floor is
the number spelled by the digits before the dot. -/
def floorOfMoneyGroup (g : List Char) : Nat :=
  digitsToNat (g.takeWhile Char.isDigit)

/-- Model of `BonbonMoneyTransfer._get_amount_of_money` (bonbon_utils.py lines 30-56),
the USSD callback installed by `run_automatic`.  `myNumber` stands for the
`self.cellular.my_number` read in the warning messages. -/
def getAmountOfMoney (st : BonbonState) (myNumber : String) (ussd_text : String) :
    HandlerResult :=
  match reSearchEur ussd_text.toList with
  | some g =>
    let money_int := floorOfMoneyGroup g
    if money_int < 1 then
      { state := st,
        effects := [Effect.logMsg ("Not enough money to send! got "
          ++ String.mk g ++ " EUR")],
        error := none }
    else
      match reSearchDate ussd_text.toList with
      | some d =>
        let r := bonbonRun { st with expirationDate := String.mk d } money_int
        { state := r.state,
          effects := Effect.logMsg ("Number is expiring: " ++ String.mk d
            ++ ". Please top up before that date.") :: r.effects,
          error := r.error }
      | none =>
        let r := bonbonRun st money_int
        { state := r.state,
          effects := Effect.logMsg ("WARNING: NUMBER HAS EXPIRED. PLEASE TOP UP AS SOON AS POSSIBLE. NUMBER: "
            ++ myNumber) :: r.effects,
          error := r.error }
  | none =>
    { state := st,
      effects := [Effect.logMsg ("No eur value found in text: '" ++ ussd_text ++ "'!"),
                  Effect.logMsg ("WARNING: NUMBER MIGHT HAVE EXPIRED. PLEASE TOP UP AS SOON AS POSSIBLE. NUMBER: "
                    ++ myNumber)],
      error := none }

/-- Model of `BonbonMoneyTransfer.run_automatic` (bonbon_utils.py lines 27-28). -/
def runAutomatic (st : BonbonState) : HandlerResult :=
  { state := st, effects := [Effect.sendUSSDReq BONBON_USSD_QUERY], error := none }

/-- A queued USSD request (`USSDRequestData`); the callback is an opaque id. -/
structure USSDReq where
  code : String
  cb : Option Nat
  deriving DecidableEq, Repr

/-- A queued SMS send request (`SMSRequestData`). -/
structure SMSReq where
  number : String
  text : String
  deriving DecidableEq, Repr

/-- The action a single loop tick performs (at most one per tick). -/
inductive LoopAction where
  | readInbound (line : String)
  | execUSSD (req : USSDReq)
  | sendSMSReq (req : SMSReq)
  deriving DecidableEq, Repr

/-- Queue/transport state seen by `_main_loop`: pending inbound lines and
the two outbound FIFO queues. -/
structure LoopState where
  inbound : List String
  ussdQ : List USSDReq
  smsQ : List SMSReq
  deriving DecidableEq, Repr

/-- One tick of `SIM800CHandler._main_loop` (sim800.py lines 273-302):
the `if in_waiting / elif ussd queue / elif sms queue` chain — at most one
branch runs, inbound data first, then the USSD queue, then the SMS queue. -/
def loopTick (s : LoopState) : LoopState × List LoopAction :=
  match s.inbound with
  | line :: rest => ({ s with inbound := rest }, [LoopAction.readInbound line])
  | [] =>
    match s.ussdQ with
    | r :: rest => ({ s with ussdQ := rest }, [LoopAction.execUSSD r])
    | [] =>
      match s.smsQ with
      | m :: rest => ({ s with smsQ := rest }, [LoopAction.sendSMSReq m])
      | [] => (s, [])

/-- Run `n` ticks of the loop, collecting the actions in order. -/
def loopRun (s : LoopState) : Nat → LoopState × List LoopAction
  | 0 => (s, [])
  | n + 1 =>
    let t := loopTick s
    let r := loopRun t.1 n
    (r.1, t.2 ++ r.2)

/-- Python `s.startswith(pre)`. -/
def pyStartsWith (s pre : String) : Bool := pre.toList.isPrefixOf s.toList

/-- Python `s.split(sep)` for a one-character separator, on char lists. -/
def splitOnChar (sep : Char) : List Char → List (List Char)
  | [] => [[]]
  | c :: rest =>
    let r := splitOnChar sep rest
    if c = sep then [] :: r
    else
      match r with
      | [] => [[c]]
      | h :: t => (c :: h) :: t

/-- Python `s.split('"')`. -/
def pySplitQuote (s : String) : List String := (splitOnChar '"' s.toList).map String.mk

/-- What `_parse_incoming_data` did with one line. -/
inductive Dispatch where
  | callInvoked (number : String)
  | specificSmsInvoked (sender body : String) (tag : HandlerTag)
  | defaultSmsInvoked (sender body : String)
  | noHandler
  | warnedMalformed
  | debugOther
  | silentIgnored
  deriving DecidableEq, Repr

/-- Python dict membership/lookup on the per-sender callback registry
(`self._sms_handle_per_number`), most recent registration first. -/
def lookupReg (reg : List (String × HandlerTag)) (n : String) : Option HandlerTag :=
  match reg with
  | [] => none
  | (k, v) :: t => if k = n then some v else lookupReg t n

/-- Model of `SIM800CHandler.register_specific_sms_callback_handle`
(sim800.py lines 53-55): insert/overwrite the entry for `n`. -/
def registerSpecific (reg : List (String × HandlerTag)) (n : String)
    (tag : HandlerTag) : List (String × HandlerTag) :=
  (n, tag) :: reg.filter (fun p => p.1 ≠ n)

/-- Model of `SIM800CHandler._parse_incoming_data` (sim800.py lines 217-268).
`body` is the next line read from the transport (consulted only for an SMS
notification); `hasCallHandle` / `hasDefaultSms` say whether the
constructor-supplied handlers are non-None.  Returns the registry (the
dispatcher never mutates it) and what was dispatched. -/
def parseIncomingData (reg : List (String × HandlerTag))
    (hasCallHandle hasDefaultSms : Bool) (line body : String) :
    List (String × HandlerTag) × Dispatch :=
  let l := pyStrip line
  if pyStartsWith l "+CLIP:" then
    let parts := pySplitQuote l
    if parts.length ≥ 2 then
      let caller := parts.getD 1 ""
      if hasCallHandle then (reg, Dispatch.callInvoked caller)
      else (reg, Dispatch.noHandler)
    else (reg, Dispatch.warnedMalformed)
  else if pyStartsWith l "+CMT:" then
    let parts := pySplitQuote l
    if parts.length ≥ 2 then
      let sender := parts.getD 1 ""
      let message := pyStrip body
      match lookupReg reg sender with
      | some tag => (reg, Dispatch.specificSmsInvoked sender message tag)
      | none =>
        if hasDefaultSms then (reg, Dispatch.defaultSmsInvoked sender message)
        else (reg, Dispatch.noHandler)
    else (reg, Dispatch.warnedMalformed)
  else if l ≠ "" ∧ l ≠ "OK" ∧ l ≠ "RING" then (reg, Dispatch.debugOther)
  else (reg, Dispatch.silentIgnored)

/-- Python `response.replace("+CNUM", "")`: remove every occurrence of
`+CNUM`, scanning left to right.  Structural recursion on a fuel that
starts at the list length; each step consumes at least one character, so
the fuel never runs out (`removeCNUMAux_fuel_irrel`). -/
def removeCNUMAux : Nat → List Char → List Char
  | 0, _ => []
  | _, [] => []
  | fuel + 1, c :: rest =>
    if "+CNUM".toList.isPrefixOf (c :: rest) then removeCNUMAux fuel (rest.drop 4)
    else c :: removeCNUMAux fuel rest

def removeCNUM (l : List Char) : List Char := removeCNUMAux l.length l

/-- Any fuel at least the list length computes the same result, so
`removeCNUM`'s fuel choice is immaterial. -/
theorem removeCNUMAux_fuel_irrel (fuel₁ : Nat) :
    ∀ (fuel₂ : Nat) (l : List Char), l.length ≤ fuel₁ → l.length ≤ fuel₂ →
      removeCNUMAux fuel₁ l = removeCNUMAux fuel₂ l := by
  induction fuel₁ with
  | zero =>
    intro fuel₂ l h1 _
    have : l = [] := List.length_eq_zero.mp (Nat.le_zero.mp h1)
    subst this
    cases fuel₂ <;> rfl
  | succ f ih =>
    intro fuel₂ l h1 h2
    match l, fuel₂ with
    | [], f2 => cases f2 <;> rfl
    | c :: rest, f2 + 1 =>
      simp only [removeCNUMAux]
      by_cases hp : "+CNUM".toList.isPrefixOf (c :: rest) = true
      · rw [if_pos hp, if_pos hp]
        apply ih
        · have := List.length_drop 4 rest
          simp at h1 ⊢
          omega
        · have := List.length_drop 4 rest
          simp at h2 ⊢
          omega
      · rw [if_neg hp, if_neg hp,
          ih f2 rest (by simp at h1; omega) (by simp at h2; omega)]

/-- Python `re.search` with pattern `\+[0-9]+`: the leftmost `+`-prefixed nonempty digit
run, taken greedily. -/
def plusDigitSearch : List Char → Option (List Char)
  | [] => none
  | c :: rest =>
    if c = '+' ∧ (rest.headD ' ').isDigit then
      some ('+' :: rest.takeWhile Char.isDigit)
    else plusDigitSearch rest

/-- Python `response.count('\n')`. -/
def countNewlines (s : String) : Nat := s.toList.count '\n'

/-- Model of `SIM800CHandler._get_own_number` (sim800.py lines 101-120) as a function
of the raw `AT+CNUM` response text.  `.ok none` is the "unresolved" return
path, `.error` the raised `ValueError`. -/
def getOwnNumber (response : String) : Except String (Option String) :=
  if strContains response "+CNUM:" = false ∨ countNewlines response < 3 then
    Except.ok none
  else
    let r := removeCNUM response.toList
    match plusDigitSearch r with
    | some run => Except.ok (some (String.mk run))
    | none => Except.error ("Unable to find number in text: '" ++ String.mk r ++ "'")

/-- The line filtering of `_send_ussd` (sim800.py lines 132-136): strip the
response, split on newlines, keep the stripped lines that are non-empty,
not "OK" and not an echo of the just-sent command. -/
def ussdResponseLines (response : String) : List String :=
  ((splitOnChar '\n' (pyStrip response).toList).map
    (fun l => String.mk (pyStripList l))).filter
    (fun r => !(r == "") && !(r == "OK") && !(pyStartsWith r "AT+CUSD=1,\""))

/-- Python `l[l.index('"') + 1:]`: everything after the first `"`; `none`
models the `ValueError` raised by `str.index` when there is no `"`. -/
def dropThroughQuote : List Char → Option (List Char)
  | [] => none
  | c :: rest => if c = '"' then some rest else dropThroughQuote rest

/-- The response-parsing tail of `SIM800CHandler._send_ussd` (sim800.py
lines 132-145): `.ok (some txt)` is a successfully extracted message,
`.ok none` the logged parse failure returning None, `.error` an uncaught
`ValueError` from `str.index`. -/
def sendUssdParse (response : String) : Except String (Option String) :=
  match ussdResponseLines response with
  | [r] =>
    match dropThroughQuote r.toList with
    | none => Except.error "ValueError: substring not found"
    | some m1 =>
      match dropThroughQuote m1.reverse with
      | none => Except.error "ValueError: substring not found"
      | some m2rev => Except.ok (some (String.mk m2rev.reverse))
  | _ => Except.ok none

/-- The substring of `l` strictly between its first and its last `"`
character, phrased with positional indices as in the specification
(meaningful when `l` has at least one `"`; with a single `"` the first and
last positions coincide and the result is empty). -/
def betweenFirstLastQuote (l : List Char) : List Char :=
  (l.drop (l.indexOf '"' + 1)).take
    ((l.length - 1 - l.reverse.indexOf '"') - l.indexOf '"' - 1)

/-- The cached-own-number state of a `SIM800CHandler` (`self._my_number`),
plus a count of `AT+CNUM` transport queries issued so far, to make
re-querying observable. -/
structure ModemState where
  myNumber : Option String
  queries : Nat
  deriving DecidableEq, Repr

/-- The `my_number` property (sim800.py lines 91-99).  `oracle n` is the
raw response text the transport produces for the `n`-th `AT+CNUM` query.
Returns the number together with the updated state, or the raised error. -/
def myNumberGet (oracle : Nat → String) (st : ModemState) :
    Except String (String × ModemState) :=
  match st.myNumber with
  | some n => Except.ok (n, st)
  | none =>
    match getOwnNumber (oracle st.queries) with
    | Except.ok (some n) =>
      Except.ok (n, { myNumber := some n, queries := st.queries + 1 })
    | Except.ok none => Except.error "Unable to get own number"
    | Except.error e => Except.error e

/-- Python `bytes.decode('utf-8', errors=...)` error modes: the code uses
`'ignore'` (and `'strict'` only when encoding outbound commands). -/
inductive DecodeMode where
  | ignore
  | replace
  deriving DecidableEq, Repr

/-- Is `b` a UTF-8 continuation byte (`0x80..0xBF`)? -/
def isCont (b : Nat) : Bool := decide (0x80 ≤ b ∧ b ≤ 0xBF)

/-- Range check for the first continuation byte of a 3-byte sequence:
`0xE0` and `0xED` have restricted ranges (no overlongs, no surrogates). -/
def cont3first (b b1 : Nat) : Bool :=
  if b = 0xE0 then decide (0xA0 ≤ b1 ∧ b1 ≤ 0xBF)
  else if b = 0xED then decide (0x80 ≤ b1 ∧ b1 ≤ 0x9F)
  else isCont b1

/-- Range check for the first continuation byte of a 4-byte sequence:
`0xF0` and `0xF4` have restricted ranges (no overlongs, max U+10FFFF). -/
def cont4first (b b1 : Nat) : Bool :=
  if b = 0xF0 then decide (0x90 ≤ b1 ∧ b1 ≤ 0xBF)
  else if b = 0xF4 then decide (0x80 ≤ b1 ∧ b1 ≤ 0x8F)
  else isCont b1

/-- Decode one UTF-8 sequence at the head: `some (codepoint, length)`, or
`none` on a decoding error at this position. -/
def utf8DecodeOne : List Nat → Option (Nat × Nat)
  | [] => none
  | b :: rest =>
    if b ≤ 0x7F then some (b, 1)
    else if 0xC2 ≤ b ∧ b ≤ 0xDF then
      match rest with
      | b1 :: _ =>
        if isCont b1 then some ((b - 0xC0) * 64 + (b1 - 0x80), 2) else none
      | _ => none
    else if 0xE0 ≤ b ∧ b ≤ 0xEF then
      match rest with
      | b1 :: b2 :: _ =>
        if cont3first b b1 && isCont b2 then
          some ((b - 0xE0) * 4096 + (b1 - 0x80) * 64 + (b2 - 0x80), 3)
        else none
      | _ => none
    else if 0xF0 ≤ b ∧ b ≤ 0xF4 then
      match rest with
      | b1 :: b2 :: b3 :: _ =>
        if cont4first b b1 && isCont b2 && isCont b3 then
          some ((b - 0xF0) * 262144 + (b1 - 0x80) * 4096
            + (b2 - 0x80) * 64 + (b3 - 0x80), 4)
        else none
      | _ => none
    else none

/-- How many bytes one decoding error consumes (CPython's "maximal valid
subpart" rule): the longest prefix of a potentially valid sequence,
at least one byte. -/
def utf8ErrLen : List Nat → Nat
  | [] => 1
  | b :: rest =>
    if 0xC2 ≤ b ∧ b ≤ 0xDF then 1
    else if 0xE0 ≤ b ∧ b ≤ 0xEF then
      match rest with
      | b1 :: _ => if cont3first b b1 then 2 else 1
      | [] => 1
    else if 0xF0 ≤ b ∧ b ≤ 0xF4 then
      match rest with
      | b1 :: b2 :: _ =>
        if cont4first b b1 then (if isCont b2 then 3 else 2) else 1
      | [b1] => if cont4first b b1 then 2 else 1
      | [] => 1
    else 1

/-- Decode a byte list: `some c` per decoded scalar, `none` per decoding
error.  Structural recursion on a fuel starting at the byte count; every
step consumes at least one byte, so the fuel suffices. -/
def utf8DecodeCoreAux : Nat → List Nat → List (Option Char)
  | 0, _ => []
  | _, [] => []
  | fuel + 1, b :: rest =>
    match utf8DecodeOne (b :: rest) with
    | some (cp, len) =>
      some (Char.ofNat cp) :: utf8DecodeCoreAux fuel ((b :: rest).drop len)
    | none =>
      none :: utf8DecodeCoreAux fuel ((b :: rest).drop (utf8ErrLen (b :: rest)))

/-- Python `bytes.decode('utf-8', errors=mode)`: `'ignore'` drops the error
positions, `'replace'` puts U+FFFD at each of them.  Total — decoding
never raises in either mode. -/
def pyDecodeUtf8 (mode : DecodeMode) (bs : List Nat) : String :=
  match mode with
  | DecodeMode.ignore =>
    String.mk ((utf8DecodeCoreAux bs.length bs).filterMap id)
  | DecodeMode.replace =>
    String.mk ((utf8DecodeCoreAux bs.length bs).map
      (fun o => o.getD (Char.ofNat 0xFFFD)))

end Sim800

namespace Sim800

/-- C1: at each awaiting step of the money-transfer flow (`_send_nr`,
`_send_amount`, `_last_confirm`), a reply whose lowercased, stripped text
does not contain that step's expected token makes the handler clear the
whole callback registry and raise, performing no registration and sending
no SMS, and leaving the flow object's fields unchanged. -/
theorem C1_mismatch_clears_and_raises (st : BonbonState) (text : String) :
    (strContains (pyStrip (pyLower text)) "09yxxxxxxx" = false →
      (sendNr st BONBON_ACTION_NR text).effects = [Effect.resetRegistry] ∧
      ((sendNr st BONBON_ACTION_NR text).error).isSome = true ∧
      (sendNr st BONBON_ACTION_NR text).state = st) ∧
    (strContains (pyStrip (pyLower text)) "cjelobrojni" = false →
      (sendAmount st BONBON_ACTION_NR text).effects = [Effect.resetRegistry] ∧
      ((sendAmount st BONBON_ACTION_NR text).error).isSome = true ∧
      (sendAmount st BONBON_ACTION_NR text).state = st) ∧
    (strContains (pyStrip (pyLower text)) "odgovori na ovu poruku s da" = false →
      (lastConfirm st BONBON_ACTION_NR text).effects = [Effect.resetRegistry] ∧
      ((lastConfirm st BONBON_ACTION_NR text).error).isSome = true ∧
      (lastConfirm st BONBON_ACTION_NR text).state = st) := by
  refine ⟨fun h => ?_, fun h => ?_, fun h => ?_⟩ <;>
    simp [sendNr, sendAmount, lastConfirm, h]

/-- C1 witness: the reply "hvala" contains none of the three tokens. -/
theorem C1_mismatch_witness :
    strContains (pyStrip (pyLower "hvala")) "09yxxxxxxx" = false ∧
    (sendNr ⟨"0911234567", 5, "unknown"⟩ BONBON_ACTION_NR "hvala").effects
      = [Effect.resetRegistry] := by
  refine ⟨by decide, ?_⟩
  exact ((C1_mismatch_clears_and_raises ⟨"0911234567", 5, "unknown"⟩ "hvala").1
    (by decide)).1

/-- C2: the USSD-balance callback on "12.50 EUR valid until 05.03.2027"
records expiration 05.03.2027 and runs the transfer with amount 12; on
"0.99 EUR, expires 31.12.2026" it truncates to 0 and skips the transfer;
and in general whenever the matched amount truncates below 1 it only logs
and starts no transfer. -/
theorem C2_runAutomatic_parse (st : BonbonState) (myNumber : String) :
    (getAmountOfMoney st myNumber "12.50 EUR valid until 05.03.2027"
      = { state := { st with amount := 12, expirationDate := "05.03.2027" },
          effects := [Effect.logMsg "Number is expiring: 05.03.2027. Please top up before that date.",
                      Effect.registerCallback BONBON_ACTION_NR HandlerTag.sendNr,
                      Effect.sendSMS BONBON_ACTION_NR "prebaci"],
          error := none }) ∧
    (getAmountOfMoney st myNumber "0.99 EUR, expires 31.12.2026"
      = { state := st,
          effects := [Effect.logMsg "Not enough money to send! got 0.99 EUR"],
          error := none }) ∧
    (∀ (text : String) (g : List Char),
      reSearchEur text.toList = some g → floorOfMoneyGroup g < 1 →
      (getAmountOfMoney st myNumber text).state = st ∧
      (getAmountOfMoney st myNumber text).error = none ∧
      ∀ e ∈ (getAmountOfMoney st myNumber text).effects, ∃ m, e = Effect.logMsg m) := by
  refine ⟨rfl, rfl, fun text g hg hlt => ?_⟩
  have hg' : reSearchEur text.data = some g := hg
  have hlt' : floorOfMoneyGroup g = 0 := Nat.lt_one_iff.mp hlt
  simp [getAmountOfMoney, hg', hlt']

/-- C2 witness: instantiating the sub-unit branch at "0.99 EUR". -/
theorem C2_runAutomatic_parse_witness :
    reSearchEur "0.99 EUR".toList = some ['0', '.', '9', '9'] ∧
    floorOfMoneyGroup ['0', '.', '9', '9'] < 1 ∧
    (getAmountOfMoney ⟨"m", 7, "unknown"⟩ "+1" "0.99 EUR").state = ⟨"m", 7, "unknown"⟩ := by
  refine ⟨by decide, by decide, ?_⟩
  exact ((C2_runAutomatic_parse ⟨"m", 7, "unknown"⟩ "+1").2.2 "0.99 EUR"
    ['0', '.', '9', '9'] (by decide) (by decide)).1

/-- C10: when the matched EUR amount truncates below 1, the callback
returns immediately after logging: the flow object's fields (amount,
expiration date) are unchanged, no callback is registered, no SMS or USSD
request is enqueued, and no error is raised. -/
theorem C10_subunit_frame (st : BonbonState) (myNumber text : String)
    (g : List Char) (hg : reSearchEur text.toList = some g)
    (hlt : floorOfMoneyGroup g < 1) :
    getAmountOfMoney st myNumber text
      = { state := st,
          effects := [Effect.logMsg ("Not enough money to send! got "
            ++ String.mk g ++ " EUR")],
          error := none } := by
  have hg' : reSearchEur text.data = some g := hg
  have hlt' : floorOfMoneyGroup g = 0 := Nat.lt_one_iff.mp hlt
  simp [getAmountOfMoney, hg', hlt']

/-- C10 witness: the sub-unit branch at "0.75 eur ostalo". -/
theorem C10_subunit_frame_witness :
    reSearchEur "0.75 eur ostalo".toList = some ['0', '.', '7', '5'] ∧
    getAmountOfMoney ⟨"0911", 4, "01.01.2030"⟩ "+385" "0.75 eur ostalo"
      = { state := ⟨"0911", 4, "01.01.2030"⟩,
          effects := [Effect.logMsg ("Not enough money to send! got "
            ++ String.mk ['0', '.', '7', '5'] ++ " EUR")],
          error := none } := by
  refine ⟨by decide, ?_⟩
  exact C10_subunit_frame ⟨"0911", 4, "01.01.2030"⟩ "+385" "0.75 eur ostalo"
    ['0', '.', '7', '5'] (by decide) (by decide)

/-- Helper: with nothing inbound and the USSD queue empty, `n` ticks drain
`n` queued SMS sends in FIFO order. -/
theorem loopRun_sms_drain (m : List SMSReq) :
    loopRun ⟨[], [], m⟩ m.length = (⟨[], [], []⟩, m.map LoopAction.sendSMSReq) := by
  induction m with
  | nil => rfl
  | cons x xs ih => simp [loopRun, loopTick, ih]

/-- Helper: with nothing inbound, `u.length + m.length` ticks drain the two
queues completely, all USSD requests first, each queue in FIFO order. -/
theorem loopRun_drain (u : List USSDReq) (m : List SMSReq) :
    loopRun ⟨[], u, m⟩ (u.length + m.length)
      = (⟨[], [], []⟩, u.map LoopAction.execUSSD ++ m.map LoopAction.sendSMSReq) := by
  induction u with
  | nil => simpa using loopRun_sms_drain m
  | cons r u' ih =>
    have hn : (r :: u').length + m.length = (u'.length + m.length) + 1 := by
      simp [Nat.succ_add]
    rw [hn]
    simp [loopRun, loopTick, ih]

/-- C3: each `_main_loop` tick performs at most one of the three actions,
with inbound data taking strict priority over the USSD queue and the USSD
queue over the SMS queue; consequently, starting with no inbound data and
arbitrary queued USSD and SMS requests, the loop drains everything with all
USSD requests processed before any SMS request, FIFO within each queue. -/
theorem C3_loop_priority_and_drain :
    (∀ s : LoopState, (loopTick s).2.length ≤ 1) ∧
    (∀ (s : LoopState) (line : String) (rest : List String),
      s.inbound = line :: rest → (loopTick s).2 = [LoopAction.readInbound line]) ∧
    (∀ (s : LoopState) (r : USSDReq) (rest : List USSDReq),
      s.inbound = [] → s.ussdQ = r :: rest → (loopTick s).2 = [LoopAction.execUSSD r]) ∧
    (∀ (s : LoopState) (m : SMSReq) (rest : List SMSReq),
      s.inbound = [] → s.ussdQ = [] → s.smsQ = m :: rest →
      (loopTick s).2 = [LoopAction.sendSMSReq m]) ∧
    (∀ (u : List USSDReq) (m : List SMSReq),
      loopRun ⟨[], u, m⟩ (u.length + m.length)
        = (⟨[], [], []⟩, u.map LoopAction.execUSSD ++ m.map LoopAction.sendSMSReq)) := by
  refine ⟨fun s => ?_, fun s line rest h => ?_, fun s r rest h1 h2 => ?_,
    fun s m rest h1 h2 h3 => ?_, loopRun_drain⟩
  · rcases s with ⟨i, u, m⟩
    rcases i with _ | _ <;> rcases u with _ | _ <;> rcases m with _ | _ <;>
      simp [loopTick]
  · rcases s with ⟨i, u, m⟩; subst h; simp [loopTick]
  · rcases s with ⟨i, u, m⟩; subst h1; subst h2; simp [loopTick]
  · rcases s with ⟨i, u, m⟩; subst h1; subst h2; subst h3; simp [loopTick]

/-- C3 witness: a concrete drain of two USSD and two SMS requests, plus the
priority facts at a concrete state. -/
theorem C3_loop_priority_and_drain_witness :
    (loopTick ⟨["+CMT: \"x\""], [⟨"*100#", some 0⟩], [⟨"13977", "prebaci"⟩]⟩).2
      = [LoopAction.readInbound "+CMT: \"x\""] ∧
    loopRun ⟨[], [⟨"*100#", some 0⟩, ⟨"*101#", none⟩],
        [⟨"13977", "prebaci"⟩, ⟨"13977", "5"⟩]⟩ 4
      = (⟨[], [], []⟩,
         [LoopAction.execUSSD ⟨"*100#", some 0⟩, LoopAction.execUSSD ⟨"*101#", none⟩,
          LoopAction.sendSMSReq ⟨"13977", "prebaci"⟩, LoopAction.sendSMSReq ⟨"13977", "5"⟩]) := by
  constructor
  · exact C3_loop_priority_and_drain.2.1 _ "+CMT: \"x\"" [] rfl
  · exact C3_loop_priority_and_drain.2.2.2.2 [⟨"*100#", some 0⟩, ⟨"*101#", none⟩]
      [⟨"13977", "prebaci"⟩, ⟨"13977", "5"⟩]

/-- Helper: a line starting with the SMS marker does not start with the
call marker (they differ at the third character). -/
theorem cmt_not_clip (s : String) (h : pyStartsWith s "+CMT:" = true) :
    pyStartsWith s "+CLIP:" = false := by
  unfold pyStartsWith at h ⊢
  rcases hl : s.toList with _ | ⟨c1, _ | ⟨c2, _ | ⟨c3, rest⟩⟩⟩ <;>
    rw [hl] at h <;> simp_all [List.isPrefixOf]
  intro _ _ h3
  exact absurd (h3.trans h.2.2.1.symm) (by decide)

/-- C4: for an incoming SMS notification line whose sender (the first
quote-delimited field) has a registry entry, that callback is invoked with
the sender and the stripped body line, the registry is left untouched and
the default handler is not invoked; for a sender with no entry, the
default handler (when present) is invoked instead. -/
theorem C4_sms_dispatch (reg : List (String × HandlerTag))
    (hasCall hasDefault : Bool) (line body : String) (tag : HandlerTag)
    (hmarker : pyStartsWith (pyStrip line) "+CMT:" = true)
    (hparts : (pySplitQuote (pyStrip line)).length ≥ 2) :
    (lookupReg reg ((pySplitQuote (pyStrip line)).getD 1 "") = some tag →
      parseIncomingData reg hasCall hasDefault line body
        = (reg, Dispatch.specificSmsInvoked ((pySplitQuote (pyStrip line)).getD 1 "")
            (pyStrip body) tag)) ∧
    (lookupReg reg ((pySplitQuote (pyStrip line)).getD 1 "") = none →
      hasDefault = true →
      parseIncomingData reg hasCall hasDefault line body
        = (reg, Dispatch.defaultSmsInvoked ((pySplitQuote (pyStrip line)).getD 1 "")
            (pyStrip body))) := by
  have hclip := cmt_not_clip _ hmarker
  constructor
  · intro hlook
    have hlook' : lookupReg reg (((pySplitQuote (pyStrip line))[1]?).getD "")
        = some tag := List.getD_eq_getElem?_getD _ 1 "" ▸ hlook
    simp [parseIncomingData, hclip, hmarker, hparts, hlook']
  · intro hlook hdef
    have hlook' : lookupReg reg (((pySplitQuote (pyStrip line))[1]?).getD "")
        = none := List.getD_eq_getElem?_getD _ 1 "" ▸ hlook
    simp [parseIncomingData, hclip, hmarker, hparts, hlook', hdef]

/-- C4 witness: a registered sender "+38512345" dispatches to its specific
callback; the unregistered sender "+38599999" falls to the default. -/
theorem C4_sms_dispatch_witness :
    (parseIncomingData [("+38512345", HandlerTag.sendNr)] true true
        "+CMT: \"+38512345\",\"\",\"24/01/01\"" " hello "
      = ([("+38512345", HandlerTag.sendNr)],
         Dispatch.specificSmsInvoked "+38512345" "hello" HandlerTag.sendNr)) ∧
    (parseIncomingData [("+38512345", HandlerTag.sendNr)] true true
        "+CMT: \"+38599999\",\"\",\"24/01/01\"" " hello "
      = ([("+38512345", HandlerTag.sendNr)],
         Dispatch.defaultSmsInvoked "+38599999" "hello")) := by
  constructor
  · exact (C4_sms_dispatch [("+38512345", HandlerTag.sendNr)] true true
      "+CMT: \"+38512345\",\"\",\"24/01/01\"" " hello " HandlerTag.sendNr
      (by decide) (by decide)).1 (by decide)
  · exact (C4_sms_dispatch [("+38512345", HandlerTag.sendNr)] true true
      "+CMT: \"+38599999\",\"\",\"24/01/01\"" " hello " HandlerTag.sendNr
      (by decide) (by decide)).2 (by decide) rfl

/-- C9: a notification line carrying the call or SMS marker but with fewer
than 2 quote-delimited fields is only logged: no handler is invoked, the
registry is untouched, and the classifier returns normally. -/
theorem C9_malformed_ignored (reg : List (String × HandlerTag))
    (hasCall hasDefault : Bool) (line body : String)
    (hmarker : pyStartsWith (pyStrip line) "+CLIP:" = true ∨
      pyStartsWith (pyStrip line) "+CMT:" = true)
    (hparts : (pySplitQuote (pyStrip line)).length < 2) :
    parseIncomingData reg hasCall hasDefault line body
      = (reg, Dispatch.warnedMalformed) := by
  have hp : ¬ (pySplitQuote (pyStrip line)).length ≥ 2 := by omega
  rcases hmarker with h | h
  · simp [parseIncomingData, h, hp]
  · have hclip := cmt_not_clip _ h
    simp [parseIncomingData, hclip, h, hp]

/-- C9 witness: quoteless call and SMS notification lines are ignored. -/
theorem C9_malformed_ignored_witness :
    (parseIncomingData [("+38512345", HandlerTag.sendNr)] true true
        "+CLIP: 0911234567,145" "x"
      = ([("+38512345", HandlerTag.sendNr)], Dispatch.warnedMalformed)) ∧
    (parseIncomingData [] true true "+CMT: garbled" "x"
      = ([], Dispatch.warnedMalformed)) := by
  constructor
  · exact C9_malformed_ignored [("+38512345", HandlerTag.sendNr)] true true
      "+CLIP: 0911234567,145" "x" (Or.inl (by decide)) (by decide)
  · exact C9_malformed_ignored [] true true "+CMT: garbled" "x"
      (Or.inr (by decide)) (by decide)

/-- C5 counterexample: for the response "++CNUM1 +CNUM:\n\n\n" the marker
is present, three newlines are present, and the response itself contains
no '+'-prefixed digit run, so the claim demands a fatal parse error; the
code instead returns "+1", a digit run that exists only after the '+CNUM'
occurrences have been removed by `str.replace`. -/
theorem C5_counterexample :
    strContains "++CNUM1 +CNUM:\n\n\n" "+CNUM:" = true ∧
    3 ≤ countNewlines "++CNUM1 +CNUM:\n\n\n" ∧
    plusDigitSearch ("++CNUM1 +CNUM:\n\n\n".toList) = none ∧
    getOwnNumber "++CNUM1 +CNUM:\n\n\n" = Except.ok (some "+1") :=
  ⟨by decide, by decide, by decide, rfl⟩

/-- C5 (amended): own-number resolution returns the unresolved sentinel
without raising whenever the '+CNUM:' marker is absent or the response has
fewer than 3 newline characters; otherwise it returns the first
'+'-prefixed digit run of the response with every '+CNUM' occurrence
removed, and raises a fatal parse error when that stripped text has no
such digit run. -/
theorem C5_own_number_resolution (response : String) :
    (strContains response "+CNUM:" = false ∨ countNewlines response < 3 →
      getOwnNumber response = Except.ok none) ∧
    (strContains response "+CNUM:" = true → 3 ≤ countNewlines response →
      (∀ run, plusDigitSearch (removeCNUM response.toList) = some run →
        getOwnNumber response = Except.ok (some (String.mk run))) ∧
      (plusDigitSearch (removeCNUM response.toList) = none →
        getOwnNumber response = Except.error ("Unable to find number in text: '"
          ++ String.mk (removeCNUM response.toList) ++ "'"))) := by
  constructor
  · intro h
    unfold getOwnNumber
    rw [if_pos h]
  · intro hm hn
    have hcond : ¬ (strContains response "+CNUM:" = false ∨
        countNewlines response < 3) := by
      rw [hm]
      simp
      omega
    constructor
    · intro run hrun
      have hrun' : plusDigitSearch (removeCNUM response.data) = some run := hrun
      unfold getOwnNumber
      rw [if_neg hcond]
      simp [hrun']
    · intro hrun
      have hrun' : plusDigitSearch (removeCNUM response.data) = none := hrun
      unfold getOwnNumber
      rw [if_neg hcond]
      simp [hrun']

/-- C5 witness: a short response resolves to the sentinel; a full response
resolves to its '+'-prefixed digit run. -/
theorem C5_own_number_resolution_witness :
    getOwnNumber "AT+CNUM\nOK" = Except.ok none ∧
    getOwnNumber "AT+CNUM\n+CNUM: \"\",\"+385912345678\",145\n\nOK\n"
      = Except.ok (some "+385912345678") := by
  constructor
  · exact (C5_own_number_resolution "AT+CNUM\nOK").1 (Or.inr (by decide))
  · exact ((C5_own_number_resolution
      "AT+CNUM\n+CNUM: \"\",\"+385912345678\",145\n\nOK\n").2
      (by decide) (by decide)).1 "+385912345678".toList (by decide)

/-- Helper: `dropThroughQuote` fails exactly when the list has no `"`. -/
theorem dropThroughQuote_eq_none (l : List Char) :
    dropThroughQuote l = none ↔ '"' ∉ l := by
  induction l with
  | nil => simp [dropThroughQuote]
  | cons c rest ih =>
    by_cases hc : c = '"'
    · subst hc
      simp [dropThroughQuote]
    · simp [dropThroughQuote, hc, ih, eq_comm]

/-- Helper: a successful `dropThroughQuote` splits the list at its first `"`. -/
theorem dropThroughQuote_eq_some (l m : List Char)
    (h : dropThroughQuote l = some m) :
    ∃ a, l = a ++ '"' :: m ∧ '"' ∉ a := by
  induction l generalizing m with
  | nil => simp [dropThroughQuote] at h
  | cons c rest ih =>
    by_cases hc : c = '"'
    · subst hc
      simp [dropThroughQuote] at h
      subst h
      exact ⟨[], rfl, by simp⟩
    · rw [dropThroughQuote, if_neg hc] at h
      obtain ⟨a, ha, hna⟩ := ih m h
      refine ⟨c :: a, by simp [ha], ?_⟩
      intro hmem
      rcases List.mem_cons.mp hmem with h1 | h1
      · exact hc h1.symm
      · exact hna h1

/-- Helper: for a list of shape `a ++ '"' :: (m ++ '"' :: c)` with `a` and
`c` quote-free, the substring strictly between the first and last `"` is
exactly `m`. -/
theorem betweenFirstLastQuote_eq (a m c : List Char)
    (ha : '"' ∉ a) (hc : '"' ∉ c) :
    betweenFirstLastQuote (a ++ '"' :: (m ++ '"' :: c)) = m := by
  unfold betweenFirstLastQuote
  have hi : (a ++ '"' :: (m ++ '"' :: c)).indexOf '"' = a.length := by
    rw [List.indexOf_append_of_not_mem ha, List.indexOf_cons_self]
    omega
  have hrev : (a ++ '"' :: (m ++ '"' :: c)).reverse
      = c.reverse ++ '"' :: (m.reverse ++ '"' :: a.reverse) := by
    simp
  have hj : (a ++ '"' :: (m ++ '"' :: c)).reverse.indexOf '"' = c.length := by
    rw [hrev, List.indexOf_append_of_not_mem (by simpa using hc),
      List.indexOf_cons_self]
    simp
  have hlen : (a ++ '"' :: (m ++ '"' :: c)).length
      = a.length + m.length + c.length + 2 := by
    simp only [List.length_append, List.length_cons]
    omega
  have hdrop : (a ++ '"' :: (m ++ '"' :: c)).drop (a.length + 1)
      = m ++ '"' :: c := by
    have hsplit : a ++ '"' :: (m ++ '"' :: c) = (a ++ ['"']) ++ (m ++ '"' :: c) := by
      simp
    have hl : (a ++ ['"']).length = a.length + 1 := by simp
    rw [hsplit, ← hl, List.drop_left]
  rw [hi, hj, hlen, hdrop]
  have harith : a.length + m.length + c.length + 2 - 1 - c.length - a.length - 1
      = m.length := by omega
  rw [harith]
  exact List.take_left m ('"' :: c)

/-- Helper: with at least two `"` characters in the line, the double
`index`/reverse-slice computation of `_send_ussd` succeeds and yields the
substring strictly between the first and the last `"`. -/
theorem sendUssd_extract (l : List Char) (h2 : 2 ≤ l.count '"') :
    ∃ m1 m2r, dropThroughQuote l = some m1 ∧
      dropThroughQuote m1.reverse = some m2r ∧
      m2r.reverse = betweenFirstLastQuote l := by
  have hmem : '"' ∈ l := List.count_pos_iff.mp (by omega)
  obtain ⟨m1, hm1⟩ : ∃ m1, dropThroughQuote l = some m1 := by
    cases hd : dropThroughQuote l with
    | none => exact absurd ((dropThroughQuote_eq_none l).mp hd) (by simp [hmem])
    | some m => exact ⟨m, rfl⟩
  obtain ⟨a, hla, hna⟩ := dropThroughQuote_eq_some l m1 hm1
  have hca : a.count '"' = 0 := List.count_eq_zero.mpr hna
  have hmem1 : '"' ∈ m1.reverse := by
    rw [hla, List.count_append, List.count_cons] at h2
    simp [hca] at h2
    exact List.mem_reverse.mpr h2
  obtain ⟨m2r, hm2r⟩ : ∃ m2r, dropThroughQuote m1.reverse = some m2r := by
    cases hd : dropThroughQuote m1.reverse with
    | none => exact absurd ((dropThroughQuote_eq_none _).mp hd) (by simp [hmem1])
    | some m => exact ⟨m, rfl⟩
  obtain ⟨b, hlb, hnb⟩ := dropThroughQuote_eq_some _ _ hm2r
  have hm1eq : m1 = m2r.reverse ++ '"' :: b.reverse := by
    have hr := congrArg List.reverse hlb
    simpa using hr
  refine ⟨m1, m2r, hm1, hm2r, ?_⟩
  rw [hla, hm1eq,
    betweenFirstLastQuote_eq a m2r.reverse b.reverse hna (by simpa using hnb)]

/-- C6 counterexample: for the raw response "a\"b\nOK" exactly one line
remains after filtering and it contains a single `"`, so its first and
last `"` coincide and the claimed "substring strictly between" is the
empty string; the code instead raises ValueError (`str.index` on the
quote-free remainder), returning neither that substring nor None. -/
theorem C6_counterexample :
    ussdResponseLines "a\"b\nOK" = ["a\"b"] ∧
    sendUssdParse "a\"b\nOK" = Except.error "ValueError: substring not found" :=
  ⟨by decide, rfl⟩

/-- C6 (amended): after discarding empty lines, "OK" lines and command
echoes, a remaining line count other than one yields None; with exactly
one remaining line holding at least two `"` characters the code returns
the substring strictly between its first and last `"`; with exactly one
remaining line holding fewer than two `"` a ValueError propagates. -/
theorem C6_ussd_parse (response : String) :
    ((ussdResponseLines response).length ≠ 1 →
      sendUssdParse response = Except.ok none) ∧
    (∀ r, ussdResponseLines response = [r] →
      (2 ≤ r.toList.count '"' →
        sendUssdParse response
          = Except.ok (some (String.mk (betweenFirstLastQuote r.toList)))) ∧
      (r.toList.count '"' < 2 →
        sendUssdParse response = Except.error "ValueError: substring not found")) := by
  constructor
  · intro h
    unfold sendUssdParse
    rcases hl : ussdResponseLines response with _ | ⟨r, _ | ⟨r2, t⟩⟩
    · rfl
    · exact absurd (by rw [hl]; rfl) h
    · rfl
  · intro r hr
    constructor
    · intro h2
      obtain ⟨m1, m2r, hm1, hm2r, heq⟩ := sendUssd_extract r.toList h2
      have hm1' : dropThroughQuote r.data = some m1 := hm1
      have heq' : m2r.reverse = betweenFirstLastQuote r.data := heq
      unfold sendUssdParse
      rw [hr]
      simp [hm1', hm2r, heq']
    · intro hlt
      unfold sendUssdParse
      rw [hr]
      cases hd : dropThroughQuote r.toList with
      | none =>
        have hd' : dropThroughQuote r.data = none := hd
        simp [hd']
      | some m1 =>
        obtain ⟨a, hla, hna⟩ := dropThroughQuote_eq_some _ _ hd
        have hm1c : m1.count '"' = 0 := by
          rw [hla, List.count_append, List.count_cons] at hlt
          simp [List.count_eq_zero.mpr hna] at hlt
          omega
        have hnone : dropThroughQuote m1.reverse = none :=
          (dropThroughQuote_eq_none _).mpr (by
            rw [List.mem_reverse]
            exact List.count_eq_zero.mp hm1c)
        have hd' : dropThroughQuote r.data = some m1 := hd
        simp [hd', hnone]

/-- C6 witness: a two-line response (echo plus quoted +CUSD line) yields
the quoted message text; a two-meaningful-line response yields None. -/
theorem C6_ussd_parse_witness :
    sendUssdParse "AT+CUSD=1,\"*100#\",15\n+CUSD: 0,\"12.50 EUR\",15\nOK"
      = Except.ok (some "12.50 EUR") ∧
    sendUssdParse "line1\nline2" = Except.ok none := by
  constructor
  · exact ((C6_ussd_parse "AT+CUSD=1,\"*100#\",15\n+CUSD: 0,\"12.50 EUR\",15\nOK").2
      "+CUSD: 0,\"12.50 EUR\",15" (by decide)).1 (by decide)
  · exact (C6_ussd_parse "line1\nline2").1 (by decide)

/-- C7: the own number is resolved lazily and cached: an access with a
non-null cache returns the cached string with the state (including the
query count) unchanged, so no transport query is issued; and after any
successful access the cache holds the returned number and every further
access returns it unchanged — once non-null, the cached value never
changes. -/
theorem C7_my_number_cached (oracle : Nat → String) (st : ModemState) :
    (∀ n, st.myNumber = some n →
      myNumberGet oracle st = Except.ok (n, st)) ∧
    (∀ n st', myNumberGet oracle st = Except.ok (n, st') →
      st'.myNumber = some n ∧
      myNumberGet oracle st' = Except.ok (n, st')) := by
  constructor
  · intro n h
    simp [myNumberGet, h]
  · intro n st' h
    cases hm : st.myNumber with
    | some m =>
      rw [myNumberGet, hm] at h
      obtain ⟨h1, h2⟩ := by simpa using h
      subst h1
      subst h2
      exact ⟨hm, by simp [myNumberGet, hm]⟩
    | none =>
      rw [myNumberGet, hm] at h
      cases hg : getOwnNumber (oracle st.queries) with
      | ok o =>
        cases o with
        | some k =>
          rw [hg] at h
          obtain ⟨h1, h2⟩ := by simpa using h
          subst h1
          subst h2
          exact ⟨rfl, by simp [myNumberGet]⟩
        | none => rw [hg] at h; simp at h
      | error e => rw [hg] at h; simp at h

/-- Helper: the decoder emits at most one item per fuel unit. -/
theorem utf8DecodeCoreAux_length (fuel : Nat) :
    ∀ bs : List Nat, (utf8DecodeCoreAux fuel bs).length ≤ fuel := by
  induction fuel with
  | zero => intro bs; cases bs <;> simp [utf8DecodeCoreAux]
  | succ f ih =>
    intro bs
    cases bs with
    | nil => simp [utf8DecodeCoreAux]
    | cons b rest =>
      rw [utf8DecodeCoreAux]
      cases utf8DecodeOne (b :: rest) with
      | some v =>
        simpa using Nat.succ_le_succ (ih (((b :: rest)).drop v.2))
      | none =>
        simpa using Nat.succ_le_succ (ih (((b :: rest)).drop (utf8ErrLen (b :: rest))))

/-- C8 counterexample: the bytes [0xFF, 0x41] decode under the code's
errors='ignore' to "A" — the undecodable 0xFF is dropped and no
substitution character appears in the result; substitution
(errors='replace') would instead give U+FFFD followed by 'A'. -/
theorem C8_counterexample :
    pyDecodeUtf8 DecodeMode.ignore [0xFF, 0x41] = "A" ∧
    Char.ofNat 0xFFFD ∉ (pyDecodeUtf8 DecodeMode.ignore [0xFF, 0x41]).toList ∧
    pyDecodeUtf8 DecodeMode.replace [0xFF, 0x41]
      = String.mk [Char.ofNat 0xFFFD, 'A'] :=
  ⟨rfl, by decide, rfl⟩

/-- C8 (amended): decoding the read-back bytes never fails, and an
undecodable byte is dropped from the returned text (errors='ignore')
rather than substituted: an invalid lead byte contributes nothing in
ignore mode (while replace mode would put U+FFFD there), an ASCII byte is
decoded as itself, and the output never exceeds the input length. -/
theorem C8_decode_ignore (b : Nat) (rest : List Nat) :
    (0x80 ≤ b ∧ b ≤ 0xC1 ∨ 0xF5 ≤ b →
      pyDecodeUtf8 DecodeMode.ignore (b :: rest)
        = pyDecodeUtf8 DecodeMode.ignore rest ∧
      pyDecodeUtf8 DecodeMode.replace (b :: rest)
        = String.mk (Char.ofNat 0xFFFD
            :: (pyDecodeUtf8 DecodeMode.replace rest).toList)) ∧
    (b ≤ 0x7F →
      pyDecodeUtf8 DecodeMode.ignore (b :: rest)
        = String.mk (Char.ofNat b
            :: (pyDecodeUtf8 DecodeMode.ignore rest).toList)) ∧
    (∀ bs : List Nat,
      (pyDecodeUtf8 DecodeMode.ignore bs).toList.length ≤ bs.length) := by
  refine ⟨fun h => ?_, fun h => ?_, fun bs => ?_⟩
  · have hone : utf8DecodeOne (b :: rest) = none := by
      rcases h with ⟨h1, h2⟩ | h1 <;>
        · simp only [utf8DecodeOne]
          rw [if_neg (by omega), if_neg (by omega), if_neg (by omega),
            if_neg (by omega)]
    have herr : utf8ErrLen (b :: rest) = 1 := by
      rcases h with ⟨h1, h2⟩ | h1 <;>
        · simp only [utf8ErrLen]
          rw [if_neg (by omega), if_neg (by omega), if_neg (by omega)]
    constructor
    · simp only [pyDecodeUtf8, List.length_cons]
      rw [utf8DecodeCoreAux, hone, herr]
      simp
    · simp only [pyDecodeUtf8, List.length_cons]
      rw [utf8DecodeCoreAux, hone, herr]
      simp
  · have hone : utf8DecodeOne (b :: rest) = some (b, 1) := by
      simp only [utf8DecodeOne]
      rw [if_pos h]
    simp only [pyDecodeUtf8, List.length_cons]
    rw [utf8DecodeCoreAux, hone]
    simp
  · calc ((pyDecodeUtf8 DecodeMode.ignore bs).toList).length
        ≤ (utf8DecodeCoreAux bs.length bs).length := by
          simp [pyDecodeUtf8]
          exact List.length_filterMap_le id _
      _ ≤ bs.length := utf8DecodeCoreAux_length bs.length bs

/-- C8 witness: the amended statement at concrete bytes — 0xFF before 'A'
is dropped in ignore mode and substituted in replace mode; 'h' (0x68)
decodes as itself. -/
theorem C8_decode_ignore_witness :
    (pyDecodeUtf8 DecodeMode.ignore [0xFF, 0x41]
        = pyDecodeUtf8 DecodeMode.ignore [0x41] ∧
      pyDecodeUtf8 DecodeMode.replace [0xFF, 0x41]
        = String.mk (Char.ofNat 0xFFFD
            :: (pyDecodeUtf8 DecodeMode.replace [0x41]).toList)) ∧
    pyDecodeUtf8 DecodeMode.ignore [0x68, 0x69]
      = String.mk (Char.ofNat 0x68
          :: (pyDecodeUtf8 DecodeMode.ignore [0x69]).toList) := by
  constructor
  · exact (C8_decode_ignore 0xFF [0x41]).1 (by omega)
  · exact (C8_decode_ignore 0x68 [0x69]).2.1 (by omega)

/-- C7 witness: a first access resolves and caches; the second access
returns the cache with no further query. -/
theorem C7_my_number_cached_witness :
    myNumberGet (fun _ => "AT+CNUM\n+CNUM: \"\",\"+385912345678\",145\n\nOK\n")
        ⟨some "+385912345678", 1⟩
      = Except.ok ("+385912345678", ⟨some "+385912345678", 1⟩) :=
  (C7_my_number_cached
    (fun _ => "AT+CNUM\n+CNUM: \"\",\"+385912345678\",145\n\nOK\n")
    ⟨some "+385912345678", 1⟩).1 "+385912345678" rfl

end Sim800
